import Mathlib

/-
Verification of the FlagHoist locator application: the distance calculator,
the client-side fetch pipeline (NaN guard, loading flag, error handling,
distance annotation and sorting) and the server-side places proxy route.
The definitions below are shallow embeddings of the TypeScript source:
real numbers stand for JS numbers (with an explicit NaN marker where the
code tests isNaN), Except models thrown exceptions, and event traces model
the React state setters.
-/

namespace FlagHoist

/-- JS Math.atan2 y x, modelled as the argument of the complex number
x + y*i: the angle in (-pi, pi] measured from the positive real axis,
which is exactly the two-argument arctangent. -/
noncomputable def atan2 (y x : ℝ) : ℝ := Complex.arg ⟨x, y⟩

/-- The calculateDistance function of the page component: haversine
distance in kilometres between two latitude/longitude pairs given in
degrees, with Earth radius 6371 km. -/
noncomputable def calculateDistance (lat1 lon1 lat2 lon2 : ℝ) : ℝ :=
  let R : ℝ := 6371
  let dLat : ℝ := ((lat2 - lat1) * Real.pi) / 180
  let dLon : ℝ := ((lon2 - lon1) * Real.pi) / 180
  let a : ℝ :=
    Real.sin (dLat / 2) * Real.sin (dLat / 2) +
      (Real.cos ((lat1 * Real.pi) / 180) * Real.cos ((lat2 * Real.pi) / 180)) *
        (Real.sin (dLon / 2) * Real.sin (dLon / 2))
  let c : ℝ := 2 * atan2 (Real.sqrt a) (Real.sqrt (1 - a))
  R * c

/-- The haversine formula exactly as section 4.1 of the specification
writes it: a = sin^2 (dLat/2) + cos lat1 * cos lat2 * sin^2 (dLon/2),
c = 2 * atan2 (sqrt a) (sqrt (1 - a)), distance = R * c with R = 6371,
degree inputs converted to radians. -/
noncomputable def haversineSpec (lat1 lon1 lat2 lon2 : ℝ) : ℝ :=
  let R : ℝ := 6371
  let dLat : ℝ := (lat2 - lat1) * Real.pi / 180
  let dLon : ℝ := (lon2 - lon1) * Real.pi / 180
  let a : ℝ :=
    Real.sin (dLat / 2) ^ 2 +
      Real.cos (lat1 * Real.pi / 180) * Real.cos (lat2 * Real.pi / 180) *
        Real.sin (dLon / 2) ^ 2
  let c : ℝ := 2 * atan2 (Real.sqrt a) (Real.sqrt (1 - a))
  R * c

lemma atan2_nonneg (y x : ℝ) (hy : 0 ≤ y) : 0 ≤ atan2 y x := by
  rw [atan2, Complex.arg_nonneg_iff]
  exact hy

lemma atan2_pos (y x : ℝ) (hy : 0 < y) : 0 < atan2 y x := by
  have h0 : 0 ≤ atan2 y x := atan2_nonneg y x hy.le
  have hne : atan2 y x ≠ 0 := by
    rw [atan2, Ne, Complex.arg_eq_zero_iff]
    rintro ⟨-, him⟩
    exact hy.ne' him
  exact lt_of_le_of_ne h0 (Ne.symm hne)

/-- C5: calculateDistance is the haversine formula of the specification
(Earth radius 6371 km, degree inputs converted to radians) and, on the
real-number model of finite JS doubles, it always returns a non-negative
number. -/
theorem calculateDistance_is_haversine (lat1 lon1 lat2 lon2 : ℝ) :
    calculateDistance lat1 lon1 lat2 lon2 = haversineSpec lat1 lon1 lat2 lon2 ∧
      0 ≤ calculateDistance lat1 lon1 lat2 lon2 := by
  constructor
  · simp only [calculateDistance, haversineSpec]
    ring_nf
  · simp only [calculateDistance]
    have h1 : (0 : ℝ) ≤ 6371 := by norm_num
    have h2 := atan2_nonneg
      (Real.sqrt (Real.sin (((lat2 - lat1) * Real.pi) / 180 / 2) *
          Real.sin (((lat2 - lat1) * Real.pi) / 180 / 2) +
        (Real.cos ((lat1 * Real.pi) / 180) * Real.cos ((lat2 * Real.pi) / 180)) *
          (Real.sin (((lon2 - lon1) * Real.pi) / 180 / 2) *
            Real.sin (((lon2 - lon1) * Real.pi) / 180 / 2))))
      (Real.sqrt (1 - (Real.sin (((lat2 - lat1) * Real.pi) / 180 / 2) *
          Real.sin (((lat2 - lat1) * Real.pi) / 180 / 2) +
        (Real.cos ((lat1 * Real.pi) / 180) * Real.cos ((lat2 * Real.pi) / 180)) *
          (Real.sin (((lon2 - lon1) * Real.pi) / 180 / 2) *
            Real.sin (((lon2 - lon1) * Real.pi) / 180 / 2)))))
      (Real.sqrt_nonneg _)
    nlinarith [h2]

lemma sin_swap_neg (u v : ℝ) :
    Real.sin (((u - v) * Real.pi) / 180 / 2) =
      -Real.sin (((v - u) * Real.pi) / 180 / 2) := by
  have h : ((u - v) * Real.pi) / 180 / 2 = -(((v - u) * Real.pi) / 180 / 2) := by
    ring
  rw [h, Real.sin_neg]

/-- C9: calculateDistance is symmetric in its two coordinate pairs. -/
theorem calculateDistance_symm (lat1 lon1 lat2 lon2 : ℝ) :
    calculateDistance lat1 lon1 lat2 lon2 = calculateDistance lat2 lon2 lat1 lon1 := by
  simp only [calculateDistance]
  rw [sin_swap_neg lat2 lat1, sin_swap_neg lon2 lon1]
  ring_nf

/-- The nested geometry.location coordinate of a Google place result. -/
structure LatLng where
  lat : ℝ
  lng : ℝ

/-- The geometry wrapper of a place result. -/
structure Geometry where
  location : LatLng

/-- The PlaceResult interface of the page component. -/
structure PlaceResult where
  geometry : Geometry
  name : String
  vicinity : String
  rating : Option ℝ := none
  distance : Option ℝ := none

/-- The sort key the comparator of fetchLocations assigns to a place:
the JS expression a.distance OR-ELSE Infinity yields Infinity whenever
distance is absent or falsy — and the number 0 is falsy — and yields the
distance itself otherwise. Top stands for Infinity. -/
noncomputable def distKey (p : PlaceResult) : WithTop ℝ :=
  match p.distance with
  | none => ⊤
  | some d => if d = 0 then ⊤ else (d : WithTop ℝ)

/-- The order the comparator of fetchLocations induces on places. -/
noncomputable def distLe (a b : PlaceResult) : Prop := distKey a ≤ distKey b

noncomputable instance : DecidableRel distLe :=
  fun a b => inferInstanceAs (Decidable (distKey a ≤ distKey b))

instance : IsTotal PlaceResult distLe := ⟨fun a b => le_total (distKey a) (distKey b)⟩

instance : IsTrans PlaceResult distLe := ⟨fun _ _ _ => le_trans⟩

/-- The map step of fetchLocations: every fetched place is copied with its
distance field set to the haversine distance from the caller's coordinate. -/
noncomputable def annotateDistances (lat lng : ℝ) (data : List PlaceResult) :
    List PlaceResult :=
  data.map fun location =>
    { location with
      distance := some (calculateDistance lat lng
        location.geometry.location.lat location.geometry.location.lng) }

/-- The map-then-sort step of fetchLocations. Array.prototype.sort is a
stable sort, modelled by insertion sort on the comparator's order. -/
noncomputable def processPlaces (lat lng : ℝ) (data : List PlaceResult) :
    List PlaceResult :=
  List.insertionSort distLe (annotateDistances lat lng data)

/-- A JS number as the fetch pipeline sees it: NaN or an ordinary value. -/
inductive JSNum where
  | nan : JSNum
  | num : ℝ → JSNum

/-- JS isNaN on a number. -/
def JSNum.isNaN : JSNum → Bool
  | .nan => true
  | .num _ => false

/-- The numeric value of a non-NaN JS number (0 as a junk value for NaN,
which is only read behind the isNaN guard). -/
def JSNum.val : JSNum → ℝ
  | .nan => 0
  | .num x => x

/-- One observable step of the executed fetchLocations body: a React state
setter invocation or the outgoing network request. -/
inductive FetchEvent where
  | setLoading : Bool → FetchEvent
  | issueRequest : ℝ → ℝ → FetchEvent
  | setLocations : List PlaceResult → FetchEvent
  | setError : String → FetchEvent

/-- The event trace of one executed (post-debounce) run of the
fetchLocations body. The response argument models the awaited fetch plus
response.json(): a parsed place list, or a thrown transport/parse error. -/
noncomputable def fetchLocationsBody (lat lng : JSNum)
    (response : Except Unit (List PlaceResult)) : List FetchEvent :=
  if lat.isNaN || lng.isNaN then
    [.setError "Invalid coordinates received. Unable to fetch locations."]
  else
    .setLoading true :: .issueRequest lat.val lng.val ::
      (match response with
       | .ok data => [.setLocations (processPlaces lat.val lng.val data)]
       | .error _ => [.setError "Failed to fetch locations."]) ++
      [.setLoading false]

/-- The client-side state container of the page component. -/
structure ClientState where
  locations : List PlaceResult
  loading : Bool
  error : String

/-- Effect of one event on the client state. -/
def applyEvent (s : ClientState) : FetchEvent → ClientState
  | .setLoading b => { s with loading := b }
  | .issueRequest _ _ => s
  | .setLocations l => { s with locations := l }
  | .setError msg => { s with error := msg }

/-- Effect of a trace on the client state, first event first. -/
def applyEvents (s : ClientState) (es : List FetchEvent) : ClientState :=
  es.foldl applyEvent s

/-- Whether an event is the outgoing network request. -/
def FetchEvent.isIssueRequest : FetchEvent → Bool
  | .issueRequest _ _ => true
  | _ => false

/-- Whether an event sets the error message slot. -/
def FetchEvent.isSetError : FetchEvent → Bool
  | .setError _ => true
  | _ => false

/-- Whether an event publishes a result set. -/
def FetchEvent.isSetLocations : FetchEvent → Bool
  | .setLocations _ => true
  | _ => false

/-- The value an event writes to the loading flag, if any. -/
def FetchEvent.loadingValue : FetchEvent → Option Bool
  | .setLoading b => some b
  | _ => none

/-- C3: when lat or lng is NaN, the executed fetch body never issues the
downstream request and sets the input-error state. -/
theorem fetchLocations_nan_guard (lat lng : JSNum)
    (response : Except Unit (List PlaceResult)) (s : ClientState)
    (h : (lat.isNaN || lng.isNaN) = true) :
    (∀ la ln : ℝ, FetchEvent.issueRequest la ln ∉ fetchLocationsBody lat lng response) ∧
      (applyEvents s (fetchLocationsBody lat lng response)).error =
        "Invalid coordinates received. Unable to fetch locations." := by
  constructor
  · intro la ln
    simp [fetchLocationsBody, h]
  · simp [fetchLocationsBody, h, applyEvents, applyEvent]

/-- Witness for C3: a concrete NaN latitude with a numeric longitude. -/
theorem fetchLocations_nan_guard_witness :
    ((JSNum.nan.isNaN || (JSNum.num 0).isNaN) = true) ∧
      ((∀ la ln : ℝ, FetchEvent.issueRequest la ln ∉
          fetchLocationsBody JSNum.nan (JSNum.num 0) (Except.ok [])) ∧
        (applyEvents ⟨[], false, ""⟩
            (fetchLocationsBody JSNum.nan (JSNum.num 0) (Except.ok []))).error =
          "Invalid coordinates received. Unable to fetch locations.") :=
  ⟨rfl, fetchLocations_nan_guard JSNum.nan (JSNum.num 0) (Except.ok []) ⟨[], false, ""⟩ rfl⟩

/-- C4: an executed fetch whose transport or parsing throws reports exactly
one error, the fetch-failure message, publishes no result set, and leaves
the previously published locations unchanged. -/
theorem fetchLocations_failure_frame (la ln : ℝ) (s : ClientState) :
    (fetchLocationsBody (JSNum.num la) (JSNum.num ln) (Except.error ())).countP
        FetchEvent.isSetError = 1 ∧
      FetchEvent.setError "Failed to fetch locations." ∈
        fetchLocationsBody (JSNum.num la) (JSNum.num ln) (Except.error ()) ∧
      (fetchLocationsBody (JSNum.num la) (JSNum.num ln) (Except.error ())).countP
        FetchEvent.isSetLocations = 0 ∧
      (applyEvents s (fetchLocationsBody (JSNum.num la) (JSNum.num ln)
          (Except.error ()))).locations = s.locations := by
  refine ⟨?_, ?_, ?_, ?_⟩ <;>
    simp [fetchLocationsBody, JSNum.isNaN, applyEvents, applyEvent,
      FetchEvent.isSetError, FetchEvent.isSetLocations, List.countP_cons]

/-- C7: every executed fetch that passes the NaN guard writes the loading
flag exactly twice, first true then false, whether the request succeeds or
fails. -/
theorem fetchLocations_loading_toggle (la ln : ℝ)
    (response : Except Unit (List PlaceResult)) :
    (fetchLocationsBody (JSNum.num la) (JSNum.num ln) response).filterMap
        FetchEvent.loadingValue = [true, false] := by
  cases response <;>
    simp [fetchLocationsBody, JSNum.isNaN, FetchEvent.loadingValue]

lemma atan2_zero_one : atan2 0 1 = 0 := by
  have h : (⟨1, 0⟩ : ℂ) = 1 := by
    refine Complex.ext ?_ ?_ <;> simp
  rw [atan2, h, Complex.arg_one]

lemma calculateDistance_self (lat lng : ℝ) : calculateDistance lat lng lat lng = 0 := by
  simp only [calculateDistance, sub_self, zero_mul, zero_div, Real.sin_zero,
    mul_zero, zero_add, add_zero, Real.sqrt_zero, sub_zero, Real.sqrt_one]
  rw [atan2_zero_one]
  ring

lemma calculateDistance_zero_one_pos : 0 < calculateDistance 0 0 1 0 := by
  simp only [calculateDistance]
  rw [show (((0:ℝ) - 0) * Real.pi) / 180 / 2 = 0 by ring, Real.sin_zero,
    show (((1:ℝ) - 0) * Real.pi) / 180 / 2 = Real.pi / 360 by ring]
  simp only [mul_zero, add_zero]
  have hs : 0 < Real.sin (Real.pi / 360) := by
    apply Real.sin_pos_of_pos_of_lt_pi
    · positivity
    · nlinarith [Real.pi_pos]
  have h1 : 0 < Real.sqrt (Real.sin (Real.pi / 360) * Real.sin (Real.pi / 360)) :=
    Real.sqrt_pos.mpr (mul_pos hs hs)
  have h2 := atan2_pos _
    (Real.sqrt (1 - Real.sin (Real.pi / 360) * Real.sin (Real.pi / 360))) h1
  nlinarith [h2]

/-- The distance value of a place as the specification reads it: the
annotated distance, with a missing distance treated as plus infinity. -/
def specDistance (p : PlaceResult) : WithTop ℝ :=
  match p.distance with
  | none => ⊤
  | some d => (d : WithTop ℝ)

/-- Ordered non-decreasing by distance, missing distance last, exactly as
the specification states the ResultSet ordering. -/
def sortedByDistance (l : List PlaceResult) : Prop :=
  l.Pairwise fun a b => specDistance a ≤ specDistance b

/-- A proxy-returned place lying exactly at the caller's coordinate. -/
def placeAtOrigin : PlaceResult :=
  { geometry := { location := { lat := 0, lng := 0 } }
    name := "Origin"
    vicinity := "here" }

/-- A proxy-returned place one degree of latitude away from the caller. -/
def placeAtRemote : PlaceResult :=
  { geometry := { location := { lat := 1, lng := 0 } }
    name := "Remote"
    vicinity := "there" }

/-- placeAtOrigin as the pipeline annotates it for a caller at (0, 0). -/
noncomputable def annOrigin : PlaceResult :=
  { placeAtOrigin with distance := some (calculateDistance 0 0 0 0) }

/-- placeAtRemote as the pipeline annotates it for a caller at (0, 0). -/
noncomputable def annRemote : PlaceResult :=
  { placeAtRemote with distance := some (calculateDistance 0 0 1 0) }

lemma ann_pair :
    annotateDistances 0 0 [placeAtOrigin, placeAtRemote] = [annOrigin, annRemote] := by
  simp [annotateDistances, placeAtOrigin, placeAtRemote, annOrigin, annRemote]

lemma key_origin : distKey annOrigin = ⊤ := by
  simp [distKey, annOrigin, placeAtOrigin, calculateDistance_self]

lemma key_remote :
    distKey annRemote = ((calculateDistance 0 0 1 0 : ℝ) : WithTop ℝ) := by
  simp [distKey, annRemote, placeAtRemote, calculateDistance_zero_one_pos.ne']

lemma not_le_pair : ¬ distLe annOrigin annRemote := by
  rw [distLe, key_origin, key_remote]
  simp [top_le_iff]

lemma sort_pair :
    processPlaces 0 0 [placeAtOrigin, placeAtRemote] = [annRemote, annOrigin] := by
  rw [processPlaces, ann_pair]
  simp [List.insertionSort, List.orderedInsert, not_le_pair]

lemma unsorted_pair : ¬ sortedByDistance [annRemote, annOrigin] := by
  simp [sortedByDistance, specDistance, annRemote, annOrigin, placeAtOrigin,
    placeAtRemote, calculateDistance_self]
  exact calculateDistance_zero_one_pos

/-- C1 as stated is false: for a successful fetch by a caller at (0, 0)
returning a place at the caller's exact coordinate and a place one degree
away, the published result set is not non-decreasing in distance — the
comparator treats the distance 0 as falsy, so the zero-distance place
sorts last. -/
theorem fetchLocations_sort_counterexample :
    FetchEvent.setLocations (processPlaces 0 0 [placeAtOrigin, placeAtRemote]) ∈
        fetchLocationsBody (JSNum.num 0) (JSNum.num 0)
          (Except.ok [placeAtOrigin, placeAtRemote]) ∧
      ¬ sortedByDistance (processPlaces 0 0 [placeAtOrigin, placeAtRemote]) := by
  constructor
  · simp [fetchLocationsBody, JSNum.isNaN, JSNum.val]
  · rw [sort_pair]
    exact unsorted_pair

/-- C1 amended: every successful fetch annotates each returned place with
the calculateDistance value from the caller's coordinate and publishes a
permutation of the annotated places that is non-decreasing in the
comparator's key, where a missing or zero distance is treated as plus
infinity and sorts last. -/
theorem fetchLocations_publishes_sorted (la ln : ℝ) (data : List PlaceResult) :
    FetchEvent.setLocations (processPlaces la ln data) ∈
        fetchLocationsBody (JSNum.num la) (JSNum.num ln) (Except.ok data) ∧
      List.Sorted distLe (processPlaces la ln data) ∧
      (processPlaces la ln data).Perm (annotateDistances la ln data) ∧
      ∀ p ∈ processPlaces la ln data,
        p.distance = some (calculateDistance la ln
          p.geometry.location.lat p.geometry.location.lng) := by
  refine ⟨?_, ?_, ?_, ?_⟩
  · simp [fetchLocationsBody, JSNum.isNaN, JSNum.val]
  · exact List.sorted_insertionSort distLe _
  · exact List.perm_insertionSort distLe _
  · intro p hp
    rw [processPlaces] at hp
    have hp2 : p ∈ annotateDistances la ln data :=
      (List.perm_insertionSort distLe _).mem_iff.mp hp
    simp only [annotateDistances, List.mem_map] at hp2
    obtain ⟨q, _, rfl⟩ := hp2
    rfl

/-- The query sent to the upstream Google nearby-search service, with the
fields the route handler passes to axios. -/
structure UpstreamRequest where
  location : String
  radius : ℕ
  type : String
  key : String
deriving DecidableEq

/-- The body of the axios response; only the results field is consumed. -/
structure UpstreamData (α : Type) where
  results : α

/-- A JSON body the route handler can respond with: an error object or a
relayed payload. -/
inductive ProxyBody (α : Type) where
  | errorJson : String → ProxyBody α
  | resultsJson : α → ProxyBody α
deriving DecidableEq

/-- An HTTP response of the route handler. -/
structure ProxyResponse (α : Type) where
  status : ℕ
  body : ProxyBody α
deriving DecidableEq

/-- JS truth test of the guard: searchParams.get returns null for an
absent parameter, and both null and the empty string are falsy. -/
def falsyParam : Option String → Bool
  | none => true
  | some s => s == ""

/-- The validation stage of the GET handler of /api/places: either an
immediate 400 response, issued without ever forming the upstream request,
or the upstream request the handler proceeds with. -/
def placesRouteStep (α : Type) (key : String) (lat lng : Option String) :
    ProxyResponse α ⊕ UpstreamRequest :=
  if falsyParam lat || falsyParam lng then
    Sum.inl { status := 400, body := ProxyBody.errorJson "Missing coordinates" }
  else
    Sum.inr
      { location := lat.getD "" ++ "," ++ lng.getD ""
        radius := 5000
        type := "school|university|college|government_office "
        key := key }

/-- The GET handler of /api/places: validate the query parameters, call
the upstream service, relay its results on success, or respond 500 when
the call throws. -/
def placesGET (α : Type) (key : String) (lat lng : Option String)
    (upstream : UpstreamRequest → Except Unit (UpstreamData α)) :
    ProxyResponse α :=
  match placesRouteStep α key lat lng with
  | Sum.inl resp => resp
  | Sum.inr req =>
    match upstream req with
    | Except.ok data => { status := 200, body := ProxyBody.resultsJson data.results }
    | Except.error _ => { status := 500, body := ProxyBody.errorJson "Failed to fetch locations" }

/-- C2: a request missing lat or lng gets status 400 with the
missing-coordinates error before any upstream request is formed; when the
handler does issue the upstream call and it throws, the response is
status 500 with the fetch-failure error; when the upstream call succeeds,
the raw results list is relayed with status 200. -/
theorem placesGET_contract (α : Type) (key : String) (lat lng : Option String)
    (upstream : UpstreamRequest → Except Unit (UpstreamData α)) :
    ((lat = none ∨ lng = none) →
        placesRouteStep α key lat lng =
            Sum.inl { status := 400, body := ProxyBody.errorJson "Missing coordinates" } ∧
          placesGET α key lat lng upstream =
            { status := 400, body := ProxyBody.errorJson "Missing coordinates" }) ∧
      (∀ req : UpstreamRequest, ∀ e : Unit,
        placesRouteStep α key lat lng = Sum.inr req → upstream req = Except.error e →
          placesGET α key lat lng upstream =
            { status := 500, body := ProxyBody.errorJson "Failed to fetch locations" }) ∧
      (∀ req : UpstreamRequest, ∀ data : UpstreamData α,
        placesRouteStep α key lat lng = Sum.inr req → upstream req = Except.ok data →
          placesGET α key lat lng upstream =
            { status := 200, body := ProxyBody.resultsJson data.results }) := by
  refine ⟨?_, ?_, ?_⟩
  · rintro (rfl | rfl) <;>
      · constructor
        · simp [placesRouteStep, falsyParam]
        · simp [placesGET, placesRouteStep, falsyParam]
  · intro req e hstep hup
    rw [placesGET, hstep]
    simp [hup]
  · intro req data hstep hup
    rw [placesGET, hstep]
    simp [hup]

/-- C8 as stated is false: the type filter the handler sends upstream is
not exactly the pipe-delimited category set — the source string carries a
trailing space after government_office. -/
theorem placesType_counterexample :
    placesRouteStep Unit "k" (some "19") (some "72") =
        Sum.inr
          { location := "19,72"
            radius := 5000
            type := "school|university|college|government_office "
            key := "k" } ∧
      "school|university|college|government_office " ≠
        "school|university|college|government_office" := by
  constructor
  · rfl
  · decide

/-- C8 amended: every upstream request the handler issues has location
lat-comma-lng, radius 5000, the credential key, and the type filter equal
to the pipe-delimited categories school, university, college,
government_office followed by a trailing space. -/
theorem placesUpstream_shape (α : Type) (key la ln : String)
    (h1 : ¬ la = "") (h2 : ¬ ln = "") :
    placesRouteStep α key (some la) (some ln) =
      Sum.inr
        { location := la ++ "," ++ ln
          radius := 5000
          type := "school|university|college|government_office "
          key := key } := by
  have hfalsy : (falsyParam (some la) || falsyParam (some ln)) = false := by
    simp [falsyParam, h1, h2]
  rw [placesRouteStep, hfalsy]
  rfl

/-- Witness for C8's amended theorem at the concrete coordinates 19, 72. -/
theorem placesUpstream_shape_witness :
    (¬ "19" = "") ∧ (¬ "72" = "") ∧
      placesRouteStep Unit "k" (some "19") (some "72") =
        Sum.inr
          { location := "19" ++ "," ++ "72"
            radius := 5000
            type := "school|university|college|government_office "
            key := "k" } :=
  ⟨by decide, by decide, placesUpstream_shape Unit "k" "19" "72" (by decide) (by decide)⟩

/-- C10: the handler responds 400 exactly when lat or lng is absent or the
empty string; any other pair of strings — numeric or not — is forwarded
verbatim in the upstream request, with no numeric or range validation. -/
theorem placesGET_no_validation (α : Type) (key : String) (lat lng : Option String)
    (upstream : UpstreamRequest → Except Unit (UpstreamData α)) :
    ((placesGET α key lat lng upstream).status = 400 ↔
        (lat = none ∨ lat = some "" ∨ lng = none ∨ lng = some "")) ∧
      (∀ la ln : String, lat = some la → lng = some ln → ¬ la = "" → ¬ ln = "" →
        placesRouteStep α key lat lng =
          Sum.inr
            { location := la ++ "," ++ ln
              radius := 5000
              type := "school|university|college|government_office "
              key := key }) := by
  constructor
  · constructor
    · intro h
      by_contra hnot
      push_neg at hnot
      obtain ⟨h1, h2, h3, h4⟩ := hnot
      have hfalsy : (falsyParam lat || falsyParam lng) = false := by
        cases lat with
        | none => exact absurd rfl h1
        | some a =>
          cases lng with
          | none => exact absurd rfl h3
          | some b =>
            have ha : ¬ a = "" := fun hh => h2 (by rw [hh])
            have hb : ¬ b = "" := fun hh => h4 (by rw [hh])
            simp [falsyParam, ha, hb]
      rw [placesGET, placesRouteStep, hfalsy] at h
      simp only [Bool.false_eq_true, if_false] at h
      cases hup : upstream { location := lat.getD "" ++ "," ++ lng.getD ""
                             radius := 5000
                             type := "school|university|college|government_office "
                             key := key } with
      | ok data => rw [hup] at h; simp at h
      | error e => rw [hup] at h; simp at h
    · intro h
      have hfalsy : (falsyParam lat || falsyParam lng) = true := by
        rcases h with rfl | rfl | rfl | rfl <;> simp [falsyParam]
      rw [placesGET, placesRouteStep, hfalsy]
      rfl
  · rintro la ln rfl rfl ha hb
    have hfalsy : (falsyParam (some la) || falsyParam (some ln)) = false := by
      simp [falsyParam, ha, hb]
    rw [placesRouteStep, hfalsy]
    rfl

/-- Modelled from the spec: the lodash debounce wrapper around the fetch
body is library code absent from the repository; the specification
describes it as a trailing debounce — only the last call within the
500 ms window executes, earlier ones are discarded, and the executed call
fires one wait period after the last invocation. Input: invocations as
(timestamp, arguments) pairs in chronological order. Output: the executed
calls as (fire time, arguments) pairs — an invocation executes exactly
when no further invocation arrives within the wait window after it. -/
def debounceExec {α : Type} (wait : ℕ) : List (ℕ × α) → List (ℕ × α)
  | [] => []
  | c :: rest =>
    match rest with
    | [] => [(c.1 + wait, c.2)]
    | c2 :: _ =>
      if c2.1 ≤ c.1 + wait then debounceExec wait rest
      else (c.1 + wait, c.2) :: debounceExec wait rest

/-- C6: a nonempty run of invocations in which each one arrives within the
wait window of its predecessor collapses to exactly one executed call,
carrying the arguments of the last invocation. -/
theorem debounce_collapses {α : Type} (wait : ℕ) (c0 : ℕ × α) (rest : List (ℕ × α))
    (h : List.Chain' (fun a b => b.1 ≤ a.1 + wait) (c0 :: rest)) :
    debounceExec wait (c0 :: rest) =
      [((rest.getLastD c0).1 + wait, (rest.getLastD c0).2)] := by
  induction rest generalizing c0 with
  | nil => rfl
  | cons c2 rest ih =>
    have h1 : c2.1 ≤ c0.1 + wait := (List.chain'_cons.mp h).1
    have h2 : List.Chain' (fun a b => b.1 ≤ a.1 + wait) (c2 :: rest) :=
      (List.chain'_cons.mp h).2
    have hstep : debounceExec wait (c0 :: c2 :: rest) =
        if c2.1 ≤ c0.1 + wait then debounceExec wait (c2 :: rest)
        else (c0.1 + wait, c0.2) :: debounceExec wait (c2 :: rest) := rfl
    rw [hstep, if_pos h1, ih c2 h2, List.getLastD_cons]

/-- Witness for C6: three invocations at 100 ms intervals with a 500 ms
wait yield exactly one executed call with the last invocation's
arguments. -/
theorem debounce_collapses_witness :
    List.Chain' (fun a b : ℕ × ℕ => b.1 ≤ a.1 + 500) [(0, 10), (100, 20), (200, 30)] ∧
      debounceExec 500 [((0:ℕ), (10:ℕ)), (100, 20), (200, 30)] = [(700, 30)] :=
  ⟨by norm_num [List.chain'_cons], by
    have h := debounce_collapses 500 ((0:ℕ), (10:ℕ)) [(100, 20), (200, 30)]
      (by norm_num [List.chain'_cons])
    simpa using h⟩

end FlagHoist
